import Mathlib

/- Verification of startop/scripts/iorap/lib/iorapd_utils.py.

The Python module is effectful: it checks local file existence, runs remote
shell commands, invokes named shell functions from a bash script, prints
diagnostics and sets a process environment variable.  We embed it shallowly:
the external collaborators (os.path.exists, cmd_utils.run_adb_shell_command,
cmd_utils.run_shell_command, cmd_utils.run_shell_func) are a `World` of
response functions, the observable side effects are recorded as an explicit
`Event` trace, and the process environment is an association list threaded
through `wait_for_iorapd_finish` (os.putenv prepends a binding; lookup finds
the most recent one). -/

namespace IorapdUtils

/-- Result shape of every delegated call: (success flag, captured output),
matching the `(passed, output)` tuples returned by cmd_utils. -/
structure ShellResult where
  passed : Bool
  output : String
  deriving DecidableEq, Repr

/-- The external collaborators consumed by the module, as response functions:
`path_exists` models os.path.exists, `run_adb_shell_command` and
`run_shell_command` model the two cmd_utils command runners, and
`run_shell_func` models cmd_utils.run_shell_func (script path, function
name, positional argument list). -/
structure World where
  path_exists : String → Bool
  run_adb_shell_command : String → ShellResult
  run_shell_command : String → ShellResult
  run_shell_func : String → String → List String → ShellResult

/-- Observable side effects of the module, in program order: a printed
diagnostic, a remote adb-shell command, a local shell command, a shell
function invocation (script, function name, args), or os.putenv. -/
inductive Event where
  | printed : String → Event
  | adbShellCmd : String → Event
  | shellCmd : String → Event
  | shellFunc : String → String → List String → Event
  | putenvEv : String → String → Event
  deriving DecidableEq, Repr

/-- IORAPD_DATA_PATH = '/data/misc/iorapd' -/
def IORAPD_DATA_PATH : String := "/data/misc/iorapd"

/-- IORAP_COMMON_BASH_SCRIPT: the runtime-resolved absolute path of the
repository's startop/scripts/iorap/common bash script (the source computes
it with os.path.realpath relative to the module's own directory; the claims
only require that the very same path value is passed on every delegated
shell-function invocation). -/
def IORAP_COMMON_BASH_SCRIPT : String := "startop/scripts/iorap/common"

/-- _iorapd_path_to_data_file: returns
'\x7b\x7d/\x7b\x7d%2F\x7b\x7d.\x7b\x7d'.format(IORAPD_DATA_PATH, package,
activity, suffix). -/
def _iorapd_path_to_data_file (package : String) (activity : String)
    (suffix : String) : String :=
  IORAPD_DATA_PATH ++ "/" ++ package ++ "%2F" ++ activity ++ "." ++ suffix

/-- The compiled-trace remote path used by the installer:
_iorapd_path_to_data_file(package, activity, 'compiled_trace.pb'). -/
def compiledTracePath (package : String) (activity : String) : String :=
  _iorapd_path_to_data_file package activity ("compiled_trace.pb")

/-- The remote directory-creation command string built by the installer:
'mkdir -p "$(dirname "<compiled_path>")"'. -/
def mkdirCommand (package : String) (activity : String) : String :=
  "mkdir -p \"$(dirname \"" ++ compiledTracePath package activity ++ "\")\""

/-- The file-push command string built by the installer:
'adb push "<input_file>" "<compiled_path>"'. -/
def pushCommand (package : String) (activity : String)
    (input_file : String) : String :=
  "adb push \"" ++ input_file ++ "\" \"" ++
    compiledTracePath package activity ++ "\""

/-- iorapd_compiler_install_trace_file: derives the compiled-trace remote
path; if the local input file does not exist, prints the diagnostic and
returns False; otherwise runs the remote mkdir command and returns False if
it failed; otherwise runs the adb push command and returns its success flag.
Returns the boolean result together with the trace of side effects. -/
def iorapd_compiler_install_trace_file (w : World) (package : String)
    (activity : String) (input_file : String) : Bool × List Event :=
  if w.path_exists input_file = false then
    (false,
     [Event.printed ("Error: File " ++ input_file ++ " does not exist")])
  else
    let r1 := w.run_adb_shell_command (mkdirCommand package activity)
    if r1.passed = false then
      (false, [Event.adbShellCmd (mkdirCommand package activity)])
    else
      let r2 := w.run_shell_command (pushCommand package activity input_file)
      (r2.passed,
       [Event.adbShellCmd (mkdirCommand package activity),
        Event.shellCmd (pushCommand package activity input_file)])

/-- wait_for_iorapd_finish: if debug, os.putenv('verbose', 'y'); then invokes
run_shell_func(IORAP_COMMON_BASH_SCRIPT, 'iorapd_readahead_wait_until_finished',
[package, activity, logcat_timestamp, str(timeout)]) and returns its success
flag.  Returns (flag, event trace, final process environment). -/
def wait_for_iorapd_finish (w : World) (env : List (String × String))
    (package : String) (activity : String) (timeout : Int) (debug : Bool)
    (logcat_timestamp : String) :
    Bool × List Event × List (String × String) :=
  let env1 := if debug then ("verbose", "y") :: env else env
  let r := w.run_shell_func IORAP_COMMON_BASH_SCRIPT
    ("iorapd_readahead_wait_until_finished")
    [package, activity, logcat_timestamp, toString timeout]
  (r.passed,
   (if debug then [Event.putenvEv ("verbose") ("y")] else []) ++
     [Event.shellFunc IORAP_COMMON_BASH_SCRIPT
       ("iorapd_readahead_wait_until_finished")
       [package, activity, logcat_timestamp, toString timeout]],
   env1)

/-- enable_iorapd_readahead: one call of
run_shell_func(IORAP_COMMON_BASH_SCRIPT, 'iorapd_readahead_enable', []),
returning its success flag. -/
def enable_iorapd_readahead (w : World) : Bool × List Event :=
  let r := w.run_shell_func IORAP_COMMON_BASH_SCRIPT
    ("iorapd_readahead_enable") []
  (r.passed,
   [Event.shellFunc IORAP_COMMON_BASH_SCRIPT ("iorapd_readahead_enable") []])

/-- disable_iorapd_readahead: one call of
run_shell_func(IORAP_COMMON_BASH_SCRIPT, 'iorapd_readahead_disable', []),
returning its success flag. -/
def disable_iorapd_readahead (w : World) : Bool × List Event :=
  let r := w.run_shell_func IORAP_COMMON_BASH_SCRIPT
    ("iorapd_readahead_disable") []
  (r.passed,
   [Event.shellFunc IORAP_COMMON_BASH_SCRIPT ("iorapd_readahead_disable") []])

/-- A concrete world where every delegate succeeds; the file exists. -/
def wAllOk : World :=
  ⟨fun _ => true, fun _ => ⟨true, ""⟩, fun _ => ⟨true, ""⟩,
   fun _ _ _ => ⟨true, ""⟩⟩

/-- A concrete world where the local file never exists. -/
def wNoFile : World :=
  ⟨fun _ => false, fun _ => ⟨true, ""⟩, fun _ => ⟨true, ""⟩,
   fun _ _ _ => ⟨true, ""⟩⟩

/-- A concrete world where the file exists but remote mkdir fails. -/
def wMkdirFails : World :=
  ⟨fun _ => true, fun _ => ⟨false, ""⟩, fun _ => ⟨true, ""⟩,
   fun _ _ _ => ⟨true, ""⟩⟩

/-- A concrete world where the file exists, mkdir succeeds, push fails. -/
def wPushFails : World :=
  ⟨fun _ => true, fun _ => ⟨true, ""⟩, fun _ => ⟨false, ""⟩,
   fun _ _ _ => ⟨true, ""⟩⟩

/-- Claim C1: for every package p, activity a and suffix s the path deriver
returns exactly '/data/misc/iorapd/' ++ p ++ '%2F' ++ a ++ '.' ++ s; in
particular for the compiled-trace suffix and the spec's scenario inputs it
returns the expected string byte-for-byte, with the literal '%2F'. -/
theorem derive_path_exact :
    (∀ p a s : String,
      _iorapd_path_to_data_file p a s =
        ("/data/misc/iorapd/") ++ p ++ ("%2F") ++ a ++ (".") ++ s) ∧
    _iorapd_path_to_data_file ("com.example.app") ("MainActivity")
        ("compiled_trace.pb") =
      ("/data/misc/iorapd/com.example.app%2FMainActivity.compiled_trace.pb") :=
  ⟨fun _ _ _ => rfl, rfl⟩

/-- Claim C2 counterexample: in the concrete all-succeeding world, the enable
operation invokes the shell-function invoker with function name
'iorapd_readahead_enable', which is not the name 'readahead_enable' that the
claim states; so the claim as stated is false. -/
theorem readahead_names_counterexample :
    (enable_iorapd_readahead wAllOk).2 =
      [Event.shellFunc IORAP_COMMON_BASH_SCRIPT
        ("iorapd_readahead_enable") []] ∧
    ("iorapd_readahead_enable" : String) ≠ ("readahead_enable" : String) :=
  ⟨rfl, by decide⟩

/-- Claim C2 (amended): the three operations invoke the shell-function
invoker with exactly the names 'iorapd_readahead_enable',
'iorapd_readahead_disable' and 'iorapd_readahead_wait_until_finished'
respectively, for every world, environment and input. -/
theorem readahead_function_names (w : World)
    (env : List (String × String)) (p a ts : String) (t : Int) (d : Bool) :
    (enable_iorapd_readahead w).2 =
      [Event.shellFunc IORAP_COMMON_BASH_SCRIPT
        ("iorapd_readahead_enable") []] ∧
    (disable_iorapd_readahead w).2 =
      [Event.shellFunc IORAP_COMMON_BASH_SCRIPT
        ("iorapd_readahead_disable") []] ∧
    (wait_for_iorapd_finish w env p a t d ts).2.1 =
      (if d then [Event.putenvEv ("verbose") ("y")] else []) ++
        [Event.shellFunc IORAP_COMMON_BASH_SCRIPT
          ("iorapd_readahead_wait_until_finished")
          [p, a, ts, toString t]] :=
  ⟨rfl, rfl, rfl⟩

/-- Claim C3: when the local input file does not exist, the installer returns
false, its entire side-effect trace is the single printed diagnostic naming
the missing path, and in particular no remote command event occurs. -/
theorem install_missing_file (w : World) (p a f : String)
    (h : w.path_exists f = false) :
    iorapd_compiler_install_trace_file w p a f =
      (false,
       [Event.printed (("Error: File ") ++ f ++ (" does not exist"))]) := by
  unfold iorapd_compiler_install_trace_file
  simp [h]

/-- Claim C3 witness: with the no-file world and the spec's scenario inputs,
the installer returns false and only prints the diagnostic. -/
theorem install_missing_file_witness :
    iorapd_compiler_install_trace_file wNoFile ("pkg") ("act")
        ("/tmp/trace.pb") =
      (false,
       [Event.printed (("Error: File ") ++ ("/tmp/trace.pb") ++
         (" does not exist"))]) :=
  install_missing_file wNoFile ("pkg") ("act") ("/tmp/trace.pb") rfl

/-- Claim C4: when the local file exists but the remote directory-creation
command reports failure, the installer returns false and its trace is
exactly the mkdir command event — the push command is never issued. -/
theorem install_mkdir_fail (w : World) (p a f : String)
    (hex : w.path_exists f = true)
    (hmk : (w.run_adb_shell_command (mkdirCommand p a)).passed = false) :
    iorapd_compiler_install_trace_file w p a f =
      (false, [Event.adbShellCmd (mkdirCommand p a)]) := by
  unfold iorapd_compiler_install_trace_file
  simp [hex, hmk]

/-- Claim C4 witness: with the mkdir-failing world, the installer returns
false and issues only the mkdir command. -/
theorem install_mkdir_fail_witness :
    iorapd_compiler_install_trace_file wMkdirFails ("pkg") ("act")
        ("/tmp/trace.pb") =
      (false, [Event.adbShellCmd (mkdirCommand ("pkg") ("act"))]) :=
  install_mkdir_fail wMkdirFails ("pkg") ("act") ("/tmp/trace.pb") rfl rfl

/-- Claim C5: when the local file exists and the remote directory creation
succeeds, the installer returns exactly the success flag of the push call,
and its trace is the mkdir command followed by the push command. -/
theorem install_push_result (w : World) (p a f : String)
    (hex : w.path_exists f = true)
    (hmk : (w.run_adb_shell_command (mkdirCommand p a)).passed = true) :
    iorapd_compiler_install_trace_file w p a f =
      ((w.run_shell_command (pushCommand p a f)).passed,
       [Event.adbShellCmd (mkdirCommand p a),
        Event.shellCmd (pushCommand p a f)]) := by
  unfold iorapd_compiler_install_trace_file
  simp [hex, hmk]

/-- Claim C5 witness: the installer's result equals the push flag in a world
where the push succeeds and in a world where the push fails. -/
theorem install_push_result_witness :
    iorapd_compiler_install_trace_file wAllOk ("pkg") ("act")
        ("/tmp/trace.pb") =
      ((wAllOk.run_shell_command
          (pushCommand ("pkg") ("act") ("/tmp/trace.pb"))).passed,
       [Event.adbShellCmd (mkdirCommand ("pkg") ("act")),
        Event.shellCmd (pushCommand ("pkg") ("act") ("/tmp/trace.pb"))]) ∧
    iorapd_compiler_install_trace_file wPushFails ("pkg") ("act")
        ("/tmp/trace.pb") =
      ((wPushFails.run_shell_command
          (pushCommand ("pkg") ("act") ("/tmp/trace.pb"))).passed,
       [Event.adbShellCmd (mkdirCommand ("pkg") ("act")),
        Event.shellCmd (pushCommand ("pkg") ("act") ("/tmp/trace.pb"))]) :=
  ⟨install_push_result wAllOk ("pkg") ("act") ("/tmp/trace.pb") rfl rfl,
   install_push_result wPushFails ("pkg") ("act") ("/tmp/trace.pb") rfl rfl⟩

/-- Claim C6: wait_for_iorapd_finish always passes the positional arguments
to the external wait function in exactly the order
[package, activity, logcat_timestamp, str(timeout)]: its trace ends with the
single shell-function invocation carrying exactly that argument list. -/
theorem wait_args_order (w : World) (env : List (String × String))
    (p a ts : String) (t : Int) (d : Bool) :
    (wait_for_iorapd_finish w env p a t d ts).2.1 =
      (if d then [Event.putenvEv ("verbose") ("y")] else []) ++
        [Event.shellFunc IORAP_COMMON_BASH_SCRIPT
          ("iorapd_readahead_wait_until_finished")
          [p, a, ts, toString t]] :=
  rfl

/-- Claim C7: with debug = true, wait_for_iorapd_finish records the putenv of
'verbose' to 'y' strictly before the shell-function invocation event, and in
the environment returned after the call, 'verbose' is still bound to 'y'
(no teardown). -/
theorem wait_debug_true_verbose (w : World) (env : List (String × String))
    (p a ts : String) (t : Int) :
    (wait_for_iorapd_finish w env p a t true ts).2.1 =
      [Event.putenvEv ("verbose") ("y"),
       Event.shellFunc IORAP_COMMON_BASH_SCRIPT
         ("iorapd_readahead_wait_until_finished")
         [p, a, ts, toString t]] ∧
    List.lookup ("verbose")
        (wait_for_iorapd_finish w env p a t true ts).2.2 = some ("y") :=
  ⟨rfl, rfl⟩

/-- Claim C8: the path deriver is deterministic — equal (package, activity,
suffix) inputs give equal output strings — and, being a total pure function
of its arguments in this embedding (as in the source, which only formats a
string), it has no failure mode and no side effect. -/
theorem derive_path_deterministic (p1 a1 s1 p2 a2 s2 : String)
    (hp : p1 = p2) (ha : a1 = a2) (hs : s1 = s2) :
    _iorapd_path_to_data_file p1 a1 s1 = _iorapd_path_to_data_file p2 a2 s2 := by
  rw [hp, ha, hs]

/-- Claim C8 witness: determinism at concrete equal inputs. -/
theorem derive_path_deterministic_witness :
    _iorapd_path_to_data_file ("pkg") ("act") ("s") =
      _iorapd_path_to_data_file ("pkg") ("act") ("s") :=
  derive_path_deterministic ("pkg") ("act") ("s") ("pkg") ("act") ("s")
    rfl rfl rfl

/-- Claim C9: enable and disable each perform exactly one delegated
shell-function call with the empty argument list and return that delegate's
success flag unchanged, discarding the captured output, for every world. -/
theorem enable_disable_single_call (w : World) :
    enable_iorapd_readahead w =
      ((w.run_shell_func IORAP_COMMON_BASH_SCRIPT
          ("iorapd_readahead_enable") []).passed,
       [Event.shellFunc IORAP_COMMON_BASH_SCRIPT
         ("iorapd_readahead_enable") []]) ∧
    disable_iorapd_readahead w =
      ((w.run_shell_func IORAP_COMMON_BASH_SCRIPT
          ("iorapd_readahead_disable") []).passed,
       [Event.shellFunc IORAP_COMMON_BASH_SCRIPT
         ("iorapd_readahead_disable") []]) :=
  ⟨rfl, rfl⟩

/-- Claim C10: with debug = false, wait_for_iorapd_finish leaves the process
environment unchanged and its only side effect is the single delegated
shell-function call (no putenv event, no print). -/
theorem wait_debug_false_frame (w : World) (env : List (String × String))
    (p a ts : String) (t : Int) :
    (wait_for_iorapd_finish w env p a t false ts).2.2 = env ∧
    (wait_for_iorapd_finish w env p a t false ts).2.1 =
      [Event.shellFunc IORAP_COMMON_BASH_SCRIPT
        ("iorapd_readahead_wait_until_finished")
        [p, a, ts, toString t]] :=
  ⟨rfl, rfl⟩

end IorapdUtils
